import Mathlib

/-!
Shallow embedding of the Linux hotspot orchestration subsystem of
`thronetools.py` (functions `run_cmd`, `run_capture`, `ensure_linux_command`,
`detect_wifi_iface`, `find_linux_wifi_iface`, `enable_hotspot_linux`,
`disable_hotspot_linux`, and the `hotspot` dispatch in `main`).

External effects are modelled explicitly: a `World` gives the responses of
the operating system to tool-presence checks and to executed commands, and
every run produces a trace of `Event`s (echoed output lines, interactive
prompts, and externally executed commands) together with an `Outcome`
(normal return, `sys_exit` code, or still blocked in an input loop).
-/

set_option maxRecDepth 10000

namespace ThroneTools

/-- ANSI colour constants from the top of `thronetools.py`. -/
def GREEN : String := "\x1b[0;32m"

def BLUE : String := "\x1b[0;34m"

def YELLOW : String := "\x1b[1;33m"

def RED : String := "\x1b[0;31m"

def NC : String := "\x1b[0m"

def BOLD : String := "\x1b[1m"

/-- Constant `LINUX_SSID`. -/
def LINUX_SSID : String := "thronetools"

/-- Constant `LINUX_TUN_IFACE`. -/
def LINUX_TUN_IFACE : String := "nekoray-tun"

/-- Constant `LINUX_NFT_TABLE`. -/
def LINUX_NFT_TABLE : String := "throne_hotspot"

/-- Constant `LINUX_REQUIRED_INET_TABLE`. -/
def LINUX_REQUIRED_INET_TABLE : String := "sing-box"

/-- Embeds `color(text, shade)`, i.e. shade ++ text ++ NC. -/
def color (text shade : String) : String := shade ++ text ++ NC

/-- A command handed to `subprocess.run`: an argument vector
(`shell=False`) or a single shell-interpreted string (`shell=True`). -/
inductive Cmd where
  | argv (args : List String)
  | sh (line : String)
deriving DecidableEq

/-- Result of a completed process: `returncode` and captured stdout
(`""` when output was not captured, as for the synthetic dry-run result). -/
structure CmdResult where
  returncode : Int
  stdout : String
deriving DecidableEq

/-- The observable environment: which executables `shutil.which` finds,
and the `(returncode, stdout)` each captured command reports, plus exit
codes of non-captured executed commands (ignored by the hotspot code,
which passes `check=False` everywhere). -/
structure World where
  which : String → Bool
  capture : List String → Int × String
  runExit : Cmd → Int

/-- Interactive input available to a run: the reply to the dry-run
question and the successive replies to the hidden password prompt. -/
structure Stdin where
  dryChoice : String
  passwords : List String

/-- One observable step of a run. -/
inductive Event where
  | echoed (s : String)
  | prompted (s : String)
  | ran (c : Cmd)
deriving DecidableEq

/-- How an invocation ends: normal return, `sys_exit(code)`, or still
blocked inside the interactive password loop because the modelled input
stream ran out (the Python loop would keep prompting). -/
inductive Outcome where
  | returned
  | exited (code : Int)
  | awaitingInput
deriving DecidableEq

/-- Space-join of arguments, as `" ".join(cmd)` does. -/
def joinSpace : List String → String
  | [] => ""
  | [a] => a
  | a :: b :: rest => a ++ " " ++ joinSpace (b :: rest)

/-- The textual command line printed in dry-run mode (list arguments are
joined with spaces, a shell string is printed as is). -/
def cmdLine : Cmd → String
  | .argv args => joinSpace args
  | .sh line => line

/-- Embeds `run_cmd(cmd, dry_run, shell, check)`: in dry-run mode echo
`"→ " + cmd` in blue and return the synthetic `CompletedProcess(cmd, 0)`;
otherwise execute; `check=True` with a non-zero exit raises
(`CalledProcessError`, modelled as `.error rc`). -/
def runCmd (w : World) (c : Cmd) (dry_run : Bool) (check : Bool) :
    List Event × Except Int CmdResult :=
  if dry_run then
    ([.echoed (color ("→ " ++ cmdLine c) BLUE)], .ok ⟨0, ""⟩)
  else
    let rc := w.runExit c
    ([.ran c], if check && rc != 0 then .error rc else .ok ⟨rc, ""⟩)

/-- Embeds `run_capture(cmd)`: always executes, capturing output; never raises. -/
def run_capture (w : World) (args : List String) : List Event × CmdResult :=
  let r := w.capture args
  ([.ran (.argv args)], ⟨r.1, r.2⟩)

/-- Embeds `ensure_linux_command(cmd, hint)`: a `which` probe; on absence echo the
error line and the hint and report `False`. -/
def ensure_linux_command (w : World) (cmd : String) (hint : Option String) :
    List Event × Bool :=
  if w.which cmd then ([], true)
  else
    ([.echoed (color ("❌ \x27" ++ cmd ++ "\x27 command not found. Please install it.") RED)]
      ++ (match hint with | some h => [.echoed h] | none => []), false)

/-- Splitting a character list at every character satisfying `p`,
keeping empty pieces (the helper behind the Python string splits). -/
def splitPred (p : Char → Bool) : List Char → List (List Char)
  | [] => [[]]
  | c :: cs =>
    let r := splitPred p cs
    if p c then [] :: r
    else
      match r with
      | [] => [[c]]
      | h :: t => (c :: h) :: t

/-- Python `str.splitlines()` for newline-separated text: split on the
newline character and drop the trailing empty piece a terminal newline
would create. -/
def splitlines (s : String) : List String :=
  match ((splitPred (· = Char.ofNat 10) s.data).map fun l => (⟨l⟩ : String)).reverse with
  | [] => []
  | last :: rest => if last = "" then rest.reverse else (last :: rest).reverse

/-- Python `str.split()` with no separator: split on whitespace runs,
discarding empty pieces. -/
def pySplit (s : String) : List String :=
  ((splitPred Char.isWhitespace s.data).map fun l => (⟨l⟩ : String)).filter (· ≠ "")

/-- Python `str.strip()`: drop leading and trailing whitespace. -/
def pyStrip (s : String) : String :=
  ⟨((s.data.dropWhile Char.isWhitespace).reverse.dropWhile Char.isWhitespace).reverse⟩

/-- Python `str.lower()` (ASCII letters, which is all the code compares). -/
def pyLower (s : String) : String := ⟨s.data.map Char.toLower⟩

/-- Helper for `splitFirstColon`: characters before and after the first
colon of a list, if any. -/
def splitFirstColonAux : List Char → Option (List Char × List Char)
  | [] => none
  | c :: cs =>
    if c = ':' then some ([], cs)
    else (splitFirstColonAux cs).map fun p => (c :: p.1, p.2)

/-- Python `line.split(":", 1)` when the line contains a colon: the part
before the first colon and everything after it; `none` when there is no
colon (the caller skips such lines). -/
def splitFirstColon (line : String) : Option (String × String) :=
  (splitFirstColonAux line.data).map fun p => ((⟨p.1⟩ : String), (⟨p.2⟩ : String))

/-- Python substring membership on lists of characters. -/
def listContainsSub : List Char → List Char → Bool
  | _, [] => true
  | [], _ :: _ => false
  | a :: as, n :: ns => (n :: ns).isPrefixOf (a :: as) || listContainsSub as (n :: ns)

/-- Python `needle in hay` on strings. -/
def pyContains (hay needle : String) : Bool :=
  listContainsSub hay.data needle.data

/-- Characters `shlex.quote` leaves unquoted: ASCII letters and digits,
underscore, at, percent, plus, equals, colon, comma, dot, slash, dash. -/
def shlexSafeChar (c : Char) : Bool :=
  c.isAlphanum || c == '_' || c == '@' || c == '%' || c == '+' || c == '='
    || c == ':' || c == ',' || c == '.' || c == '/' || c == '-'

/-- Replacement of each single quote by the shell idiom quote,
double-quoted-quote, quote, as `string.replace` does in `shlex.quote`. -/
def quoteEscapeAux : List Char → List Char
  | [] => []
  | c :: cs =>
    if c = '\x27' then '\x27' :: '"' :: '\x27' :: '"' :: '\x27' :: quoteEscapeAux cs
    else c :: quoteEscapeAux cs

/-- Embeds `shlex.quote(s)`: empty becomes two single quotes; safe
strings pass through; anything else is single-quoted with embedded
single quotes escaped. -/
def quote (s : String) : String :=
  if s = "" then "\x27\x27"
  else if s.data.all shlexSafeChar then s
  else "\x27" ++ (⟨quoteEscapeAux s.data⟩ : String) ++ "\x27"

/-- Inner loop of `detect_wifi_iface` over `nmcli device status` lines:
first device whose second whitespace-separated field is `wifi`. -/
def firstWifiDevice : List String → String
  | [] => ""
  | line :: rest =>
    let parts := pySplit line
    if h : 2 ≤ parts.length then
      if parts.get ⟨1, by omega⟩ = "wifi" then parts.get ⟨0, by omega⟩
      else firstWifiDevice rest
    else firstWifiDevice rest

/-- Embeds `detect_wifi_iface()`: query `nmcli device status`; on failure the empty string,
otherwise the first device of type `wifi`. -/
def detect_wifi_iface (w : World) : List Event × String :=
  let (ev, res) := run_capture w ["nmcli", "device", "status"]
  if res.returncode != 0 then (ev, "")
  else (ev, firstWifiDevice (splitlines res.stdout))

/-- Inner loop of `find_linux_wifi_iface` over `nmcli -t -f DEVICE,TYPE device`
lines: the requested device if some line reports it with type `wifi`. -/
def findRequestedDevice (requested : String) : List String → String
  | [] => ""
  | line :: rest =>
    match splitFirstColon line with
    | none => findRequestedDevice requested rest
    | some (device, dev_type) =>
      if device = requested ∧ dev_type = "wifi" then device
      else findRequestedDevice requested rest

/-- Embeds `find_linux_wifi_iface(requested_iface)`: with no (or empty) request
fall back to `detect_wifi_iface`; otherwise validate the request against
the terse device/type listing. -/
def find_linux_wifi_iface (w : World) (requested_iface : Option String) :
    List Event × String :=
  if requested_iface.getD "" = "" then detect_wifi_iface w
  else
    let (ev, res) := run_capture w ["nmcli", "-t", "-f", "DEVICE,TYPE", "device"]
    if res.returncode != 0 then (ev, "")
    else (ev, findRequestedDevice (requested_iface.getD "") (splitlines res.stdout))

/-- Text of the dry-run question asked by `enable_hotspot_linux` and
`disable_hotspot_linux` when their `dry_run` argument is `None`. -/
def dryRunQuestion : String := "Run in dry-run mode? (y/N): "

/-- Remediation hint passed to `ensure_linux_command` for `nmcli`. -/
def nmcliHint : String :=
  "   Debian/Ubuntu: sudo apt install network-manager\n   Fedora:        sudo dnf install NetworkManager\n   Arch:          sudo pacman -S networkmanager"

/-- Remediation hint passed to `ensure_linux_command` for `iw`. -/
def iwHint : String :=
  "   Debian/Ubuntu: sudo apt install iw\n   Fedora:        sudo dnf install iw\n   Arch:          sudo pacman -S iw"

/-- Remediation hint passed to `ensure_linux_command` for `nft`. -/
def nftHint : String :=
  "   Debian/Ubuntu: sudo apt install nftables\n   Fedora:        sudo dnf install nftables\n   Arch:          sudo pacman -S nftables"

/-- Interactive password loop of `enable_hotspot_linux` (the
`while True: getpass ...` at lines 520-524): prompt, accept the first
reply of length at least 8, echo the length error and retry otherwise;
`none` when the modelled input stream runs out (the loop keeps waiting). -/
def promptPassword : List String → List Event × Option String
  | [] => ([.prompted "\n🔒 Enter hotspot password (min 8 chars): "], none)
  | p :: rest =>
    if p.length ≥ 8 then
      ([.prompted "\n🔒 Enter hotspot password (min 8 chars): "], some p)
    else
      let (ev, r) := promptPassword rest
      ([.prompted "\n🔒 Enter hotspot password (min 8 chars): ",
        .echoed (color "❌ Password must be at least 8 characters." RED)] ++ ev, r)

/-- Firewall tail of `enable_hotspot_linux` (lines 557-605): the seven
shell `nft` commands in fixed order followed by the summary echoes. -/
def enable_firewall_tail (w : World) (dr : Bool) (hotspot_iface ssid pw : String)
    (tr : List Event) : List Event × Outcome :=
  let tr0 := tr ++ [.echoed (color "✅ Setting up nftables rules..." GREEN)]
  let table := quote LINUX_NFT_TABLE
  let tun_iface := quote LINUX_TUN_IFACE
  let hs_iface := quote hotspot_iface
  let (e1, _) := runCmd w (.sh ("sudo nft delete table ip " ++ table ++ " 2>/dev/null || true")) dr false
  let (e2, _) := runCmd w (.sh ("sudo nft add table ip " ++ table)) dr false
  let (e3, _) := runCmd w (.sh ("sudo nft add chain ip " ++ table ++ " postrouting \x7b type nat hook postrouting priority srcnat; policy accept; \x7d")) dr false
  let (e4, _) := runCmd w (.sh ("sudo nft add rule ip " ++ table ++ " postrouting oifname \"" ++ tun_iface ++ "\" masquerade")) dr false
  let (e5, _) := runCmd w (.sh ("sudo nft add chain ip " ++ table ++ " forward \x7b type filter hook forward priority filter; policy accept; \x7d")) dr false
  let (e6, _) := runCmd w (.sh ("sudo nft add rule ip " ++ table ++ " forward iifname \"" ++ hs_iface ++ "\" oifname \"" ++ tun_iface ++ "\" accept")) dr false
  let (e7, _) := runCmd w (.sh ("sudo nft add rule ip " ++ table ++ " forward iifname \"" ++ tun_iface ++ "\" oifname \"" ++ hs_iface ++ "\" ct state established,related accept")) dr false
  (tr0 ++ e1 ++ e2 ++ e3 ++ e4 ++ e5 ++ e6 ++ e7 ++
    [.echoed "", .echoed (color "✔ Hotspot is ready and running!" (GREEN ++ BOLD)),
     .echoed ("SSID: " ++ ssid), .echoed ("Password: " ++ pw), .echoed ""],
   .returned)

/-- Echo of the dry-run notice printed when `dry_run` is selected. -/
def dryRunNotice : String :=
  color "🧪 Running in dry-run mode — no changes will be made." YELLOW

/-- Resolution of the `dry_run` argument (lines 468-470 and 611-613): a
`None` argument triggers the interactive question, whose reply selects
dry-run exactly when it equals "y" after strip and lower. -/
def resolveDryRun (stdin : Stdin) (dry_run : Option Bool) : Bool :=
  match dry_run with
  | some b => b
  | none => pyLower (pyStrip stdin.dryChoice) = "y"

/-- Header events shared by enable and disable: the interactive dry-run
question when `dry_run` is `None`, and the dry-run notice when dry-run
is selected. -/
def dryRunHeader (stdin : Stdin) (dry_run : Option Bool) : List Event :=
  (match dry_run with | none => [.prompted dryRunQuestion] | some _ => []) ++
    (if resolveDryRun stdin dry_run then [.echoed dryRunNotice] else [])

/-- Body of `enable_hotspot_linux` after the banner and dry-run
resolution (lines 474-605), with the dry-run flag already decoded; the
trace is built from the tool checks onward (the caller prepends the
header events). -/
def enable_hotspot_core (w : World) (stdin : Stdin) (dr : Bool)
    (iface ssid password : Option String) : List Event × Outcome :=
  let (evN, okN) := ensure_linux_command w "nmcli" (some nmcliHint)
  if okN = false then (evN, .exited 1) else
  let (evI, okI) := ensure_linux_command w "iw" (some iwHint)
  if okI = false then (evN ++ evI, .exited 1) else
  let (evF, okF) := ensure_linux_command w "nft" (some nftHint)
  if okF = false then (evN ++ evI ++ evF, .exited 1) else
  let tr1 := evN ++ evI ++ evF
  let (evIf, hotspot_iface) := find_linux_wifi_iface w iface
  let tr2 := tr1 ++ evIf
  if hotspot_iface = "" then
    (tr2 ++ [.echoed (if iface.getD "" ≠ "" then
        color ("❌ Wi-Fi interface not found: " ++ iface.getD "") RED
      else color "❌ No Wi-Fi interface found. Exiting." RED)], .exited 1)
  else
  let tr3 := tr2 ++ [.echoed (color ("✅ Wi-Fi interface: " ++ BOLD ++ hotspot_iface ++ NC) GREEN)]
  let (evT, resT) := run_capture w ["sudo", "nft", "list", "table", "inet", LINUX_REQUIRED_INET_TABLE]
  let tr4 := tr3 ++ evT
  if resT.returncode != 0 then
    (tr4 ++ [.echoed (color ("❌ Missing \x27inet " ++ LINUX_REQUIRED_INET_TABLE ++ "\x27 nftables table.") RED),
             .echoed "   Please enable \x27Tun Mode\x27 in Throne/NekoRay GUI settings."], .exited 1)
  else
  let tr5 := tr4 ++ [.echoed (color "✅ Enabling Wi-Fi..." GREEN)]
  let (evR, _) := runCmd w (.argv ["nmcli", "radio", "wifi", "on"]) dr false
  let tr6 := tr5 ++ evR
  let (evP, resP) := run_capture w ["iw", "dev", hotspot_iface, "info"]
  let tr7 := tr6 ++ evP
  if resP.returncode = 0 ∧ pyContains resP.stdout "type AP" then
    (tr7 ++ [.echoed (color ("⚠ A Wi-Fi hotspot is already active on " ++ hotspot_iface ++ ". Skipping creation.") YELLOW)],
     .returned)
  else
  let tr8 := tr7 ++ [.echoed (color "✅ Starting hotspot..." GREEN)]
  let (evPw, pwOpt) :=
    if password.getD "" = "" then promptPassword stdin.passwords
    else (([] : List Event), some (password.getD ""))
  let tr9 := tr8 ++ evPw
  match pwOpt with
  | none => (tr9, .awaitingInput)
  | some pw =>
    if pw.length < 8 then
      (tr9 ++ [.echoed (color "❌ Password must be at least 8 characters." RED)], .exited 1)
    else
    let ssid1 := if ssid.getD "" = "" then LINUX_SSID else ssid.getD ""
    if dr then
      enable_firewall_tail w dr hotspot_iface ssid1 pw
        (tr9 ++ [.echoed (color ("→ nmcli dev wifi hotspot ifname \"" ++ hotspot_iface ++ "\" ssid \"" ++ ssid1 ++ "\" password \"********\"") BLUE)])
    else
      let (evC, resC) := run_capture w
        ["nmcli", "dev", "wifi", "hotspot", "ifname", hotspot_iface, "ssid", ssid1, "password", pw]
      let tr10 := tr9 ++ evC
      if resC.returncode != 0 then
        (tr10 ++ [.echoed (color "❌ Failed to start hotspot — maybe AP mode is unsupported." RED)], .exited 1)
      else enable_firewall_tail w dr hotspot_iface ssid1 pw tr10

/-- Embeds `enable_hotspot_linux(dry_run, iface, ssid, password)`
(lines 464-605): the banner echoes and dry-run resolution (lines 465-472)
followed by `enable_hotspot_core`. `none` arguments are Python `None`;
argparse supplies `some` values. -/
def enable_hotspot_linux (w : World) (stdin : Stdin) (dry_run : Option Bool)
    (iface ssid password : Option String) : List Event × Outcome :=
  let ev0 : List Event :=
    [.echoed (color "=== ENABLE HOTSPOT ===" BLUE), .echoed "",
     .echoed (color "🚀 Starting Throne Hotspot..." GREEN)]
  let r := enable_hotspot_core w stdin (resolveDryRun stdin dry_run) iface ssid password
  (ev0 ++ dryRunHeader stdin dry_run ++ r.1, r.2)

/-- Body of `disable_hotspot_linux` after the banner and dry-run
resolution (lines 617-631), with the dry-run flag already decoded. -/
def disable_hotspot_core (w : World) (dr : Bool) : List Event × Outcome :=
  let tr0 : List Event := [.echoed (color "✅ Stopping hotspot..." GREEN)]
  let (e1, _) := runCmd w (.argv ["nmcli", "connection", "down", "Hotspot"]) dr false
  let (e2, _) := runCmd w (.argv ["nmcli", "connection", "delete", "Hotspot"]) dr false
  let tr1 := tr0 ++ e1 ++ e2 ++ [.echoed (color "✅ Removing nftables table..." GREEN)]
  let (e3, _) := runCmd w (.sh ("sudo nft delete table ip " ++ quote LINUX_NFT_TABLE ++ " 2>/dev/null || true")) dr false
  (tr1 ++ e3 ++ [.echoed "", .echoed (color "✔ Hotspot stopped and nftables rules removed." (GREEN ++ BOLD)), .echoed ""],
   .returned)

/-- Embeds `disable_hotspot_linux(dry_run)` (lines 608-631): banner and
dry-run resolution followed by `disable_hotspot_core`. -/
def disable_hotspot_linux (w : World) (stdin : Stdin) (dry_run : Option Bool) :
    List Event × Outcome :=
  let ev0 : List Event := [.echoed (color "=== DISABLE HOTSPOT ===" BLUE), .echoed ""]
  let r := disable_hotspot_core w (resolveDryRun stdin dry_run)
  (ev0 ++ dryRunHeader stdin dry_run ++ r.1, r.2)

/-- Parsed `hotspot enable` CLI arguments: `--dry-run` is an argparse
`store_true` flag, so it is `false` (not `None`) when absent; the string
options are `None` when absent. -/
structure HotspotEnableArgs where
  dry_run : Bool
  iface : Option String
  ssid : Option String
  password : Option String

/-- Dispatch of `hotspot enable` in `main` (lines 1425-1431): the parsed
flag values are passed straight to `enable_hotspot_linux`. -/
def cli_hotspot_enable (w : World) (stdin : Stdin) (a : HotspotEnableArgs) :
    List Event × Outcome :=
  enable_hotspot_linux w stdin (some a.dry_run) a.iface a.ssid a.password

/-- Dispatch of `hotspot disable` in `main` (lines 1432-1433). -/
def cli_hotspot_disable (w : World) (stdin : Stdin) (dry_run_flag : Bool) :
    List Event × Outcome :=
  disable_hotspot_linux w stdin (some dry_run_flag)

/-- Menu path (`main_linux`, choice "5"): `enable_hotspot_linux()` with
all defaults, so `dry_run` is `None`. -/
def menu_hotspot_enable (w : World) (stdin : Stdin) : List Event × Outcome :=
  enable_hotspot_linux w stdin none none none none

/-- Menu path (`main_linux`, choice "6"): `disable_hotspot_linux()`. -/
def menu_hotspot_disable (w : World) (stdin : Stdin) : List Event × Outcome :=
  disable_hotspot_linux w stdin none

/-- Commands actually handed to `subprocess.run` during a trace
(via `run` or `run_capture`); dry-run echoes are not among them. -/
def execCmds (tr : List Event) : List Cmd :=
  tr.filterMap fun e => match e with | .ran c => some c | _ => none

/-- Lines printed with `typer.echo` during a trace. -/
def echoes (tr : List Event) : List String :=
  tr.filterMap fun e => match e with | .echoed s => some s | _ => none

/-- Read-only query commands of the hotspot subsystem: the two `nmcli`
device listings, the `nft list table` probe, and the `iw dev ... info`
probe.  Everything else the subsystem runs mutates system state. -/
def isQueryCmd : Cmd → Bool
  | .argv args =>
      args = ["nmcli", "device", "status"]
      || args = ["nmcli", "-t", "-f", "DEVICE,TYPE", "device"]
      || args.take 5 = ["sudo", "nft", "list", "table", "inet"]
      || (args.take 2 = ["iw", "dev"] && args.getLast? = some "info")
  | .sh _ => false

/-- The hotspot-creation command `nmcli dev wifi hotspot ...`. -/
def isHotspotCreateCmd : Cmd → Bool
  | .argv args => args.take 4 = ["nmcli", "dev", "wifi", "hotspot"]
  | .sh _ => false

/-- A mutating firewall command: all of them are shell strings beginning
`sudo nft `. -/
def isNftMutateCmd : Cmd → Bool
  | .sh s => "sudo nft ".data.isPrefixOf s.data
  | .argv _ => false

/-- The radio-on command. -/
def radioOnCmd : Cmd := .argv ["nmcli", "radio", "wifi", "on"]

/-- Dry-run command echoes are the blue lines beginning with an arrow. -/
def isCmdEchoLine (s : String) : Bool := (BLUE ++ "→ ").data.isPrefixOf s.data

/-- The would-be command lines emitted during a trace (dry-run output). -/
def cmdEchoLines (tr : List Event) : List String :=
  (echoes tr).filter isCmdEchoLine

/-- A `World` for the happy-path scenario: all tools present, the device
listing reports `wlan0` as wifi and `eth0` as ethernet, the required
`inet sing-box` table exists, `wlan0` is in managed (not AP) mode, and
every other command succeeds. -/
def happyWorld : World where
  which := fun _ => true
  capture := fun args =>
    if args = ["nmcli", "device", "status"] then
      (0, "DEVICE TYPE STATE CONNECTION\nwlan0 wifi disconnected --\neth0 ethernet connected Wired")
    else if args = ["nmcli", "-t", "-f", "DEVICE,TYPE", "device"] then
      (0, "wlan0:wifi\neth0:ethernet")
    else if args = ["sudo", "nft", "list", "table", "inet", "sing-box"] then
      (0, "table inet sing-box \x7b\x7d")
    else if args = ["iw", "dev", "wlan0", "info"] then
      (0, "Interface wlan0\n\ttype managed")
    else (0, "")
  runExit := fun _ => 0

/-- Override one captured command's response in a `World`. -/
def World.withCapture (w : World) (args : List String) (r : Int × String) : World :=
  { w with capture := fun a => if a = args then r else w.capture a }

/-- Happy world except the `inet sing-box` precondition probe fails. -/
def noTableWorld : World :=
  happyWorld.withCapture ["sudo", "nft", "list", "table", "inet", "sing-box"] (1, "")

/-- Happy world except `wlan0` already reports `type AP`. -/
def apActiveWorld : World :=
  happyWorld.withCapture ["iw", "dev", "wlan0", "info"] (0, "Interface wlan0\n\ttype AP")

/-- Happy world except the `iw dev wlan0 info` probe itself fails, with
output that even contains `type AP` (ignored because of the exit code). -/
def probeFailWorld : World :=
  happyWorld.withCapture ["iw", "dev", "wlan0", "info"] (1, "type AP")

/-- Happy world except the hotspot-creation command fails. -/
def createFailWorld : World :=
  happyWorld.withCapture
    ["nmcli", "dev", "wifi", "hotspot", "ifname", "wlan0", "ssid", "thronetools", "password", "abcdefgh"]
    (1, "Error")

/-- Stdin with empty dry-run reply and no password replies. -/
def emptyStdin : Stdin := ⟨"", []⟩

lemma detect_wifi_iface_fst (w : World) :
    (detect_wifi_iface w).1 = [.ran (.argv ["nmcli", "device", "status"])] := by
  simp only [detect_wifi_iface, run_capture]
  split <;> rfl

lemma find_linux_wifi_iface_fst (w : World) (r : Option String) :
    (find_linux_wifi_iface w r).1 = [.ran (.argv ["nmcli", "device", "status"])] ∨
    (find_linux_wifi_iface w r).1 = [.ran (.argv ["nmcli", "-t", "-f", "DEVICE,TYPE", "device"])] := by
  simp only [find_linux_wifi_iface, run_capture]
  split
  · exact .inl (detect_wifi_iface_fst w)
  · right; split <;> rfl

lemma find_linux_wifi_iface_none_fst (w : World) :
    (find_linux_wifi_iface w none).1 = [.ran (.argv ["nmcli", "device", "status"])] := by
  have h : find_linux_wifi_iface w none = detect_wifi_iface w := by
    simp [find_linux_wifi_iface]
  rw [h, detect_wifi_iface_fst]

lemma execCmds_append (a b : List Event) : execCmds (a ++ b) = execCmds a ++ execCmds b := by
  simp [execCmds]

lemma execCmds_nil : execCmds [] = [] := rfl

lemma execCmds_echoed_cons (s : String) (t : List Event) :
    execCmds (.echoed s :: t) = execCmds t := rfl

lemma execCmds_prompted_cons (s : String) (t : List Event) :
    execCmds (.prompted s :: t) = execCmds t := rfl

lemma execCmds_ran_cons (c : Cmd) (t : List Event) :
    execCmds (.ran c :: t) = c :: execCmds t := rfl

/-- C5: if the AP-mode probe on the resolved interface succeeds and its
output contains "type AP", the Linux hotspot enable operation
short-circuits as success without issuing the hotspot-creation command
and without issuing any of the firewall rule commands. -/
theorem C5_ap_active_short_circuit (w : World) (stdin : Stdin) (dry_run : Option Bool)
    (iface ssid password : Option String) (ifname : String)
    (hn : w.which "nmcli" = true) (hi : w.which "iw" = true) (hf : w.which "nft" = true)
    (hfi : (find_linux_wifi_iface w iface).2 = ifname) (hne : ifname ≠ "")
    (ht : (w.capture ["sudo", "nft", "list", "table", "inet", "sing-box"]).1 = 0)
    (hap : (w.capture ["iw", "dev", ifname, "info"]).1 = 0)
    (haps : pyContains (w.capture ["iw", "dev", ifname, "info"]).2 "type AP" = true) :
    (enable_hotspot_linux w stdin dry_run iface ssid password).2 = .returned ∧
    ∀ c ∈ execCmds (enable_hotspot_linux w stdin dry_run iface ssid password).1,
      isHotspotCreateCmd c = false ∧ isNftMutateCmd c = false := by
  rcases hp : find_linux_wifi_iface w iface with ⟨evIf, name⟩
  have hname : name = ifname := by rw [hp] at hfi; exact hfi
  subst hname
  have hev := find_linux_wifi_iface_fst w iface
  rw [hp] at hev
  simp only [Prod.mk.injEq] at hev
  rcases dry_run with _ | b
  case none =>
    by_cases hy : pyLower (pyStrip stdin.dryChoice) = "y" <;>
    rcases hev with hev | hev <;> subst hev <;>
    simp [enable_hotspot_linux, enable_hotspot_core, resolveDryRun, dryRunHeader, ensure_linux_command, hn, hi, hf, hp, run_capture,
      runCmd, LINUX_REQUIRED_INET_TABLE, hfi, hne, ht, hap, haps, hy,
      execCmds_append, execCmds_echoed_cons, execCmds_prompted_cons,
      execCmds_ran_cons, execCmds_nil, isHotspotCreateCmd, isNftMutateCmd]
  case some =>
    cases b <;>
    rcases hev with hev | hev <;> subst hev <;>
    simp [enable_hotspot_linux, enable_hotspot_core, resolveDryRun, dryRunHeader, ensure_linux_command, hn, hi, hf, hp, run_capture,
      runCmd, LINUX_REQUIRED_INET_TABLE, hfi, hne, ht, hap, haps,
      execCmds_append, execCmds_echoed_cons, execCmds_prompted_cons,
      execCmds_ran_cons, execCmds_nil, isHotspotCreateCmd, isNftMutateCmd]

/-- Witness for C5 at a concrete world whose `iw` probe reports
`type AP` on the resolved interface `wlan0`. -/
theorem C5_witness :
    (enable_hotspot_linux apActiveWorld emptyStdin (some false) none none (some "abcdefgh")).2 = .returned ∧
    ∀ c ∈ execCmds (enable_hotspot_linux apActiveWorld emptyStdin (some false) none none (some "abcdefgh")).1,
      isHotspotCreateCmd c = false ∧ isNftMutateCmd c = false :=
  C5_ap_active_short_circuit apActiveWorld emptyStdin (some false) none none (some "abcdefgh") "wlan0"
    (by decide) (by decide) (by decide) (by decide) (by decide) (by decide) (by decide) (by decide)

lemma disable_hotspot_core_snd (w : World) (dr : Bool) :
    (disable_hotspot_core w dr).2 = .returned := by
  cases dr <;> rfl

/-- C8: the Linux hotspot disable operation always returns normally
(success), for every environment — in particular when the firewall table
does not exist — since every command it issues is best-effort. -/
theorem C8_disable_always_succeeds (w : World) (stdin : Stdin) (dry_run : Option Bool) :
    (disable_hotspot_linux w stdin dry_run).2 = .returned := by
  have h : (disable_hotspot_linux w stdin dry_run).2 =
      (disable_hotspot_core w (resolveDryRun stdin dry_run)).2 := rfl
  rw [h, disable_hotspot_core_snd]

/-- C3: on the Linux happy path (tools present, required table present,
interface resolved, AP not active, valid password accepted, creation
succeeds) enable executes exactly one radio-on command, one AP-mode
probe, one hotspot-creation command, and then the seven firewall
commands (delete table, add table, add postrouting chain, add masquerade
rule, add forward chain, two forward rules), in that fixed order. -/
theorem C3_happy_path_order (w : World) (stdin : Stdin) (p ifname : String)
    (hn : w.which "nmcli" = true) (hi : w.which "iw" = true) (hf : w.which "nft" = true)
    (hfi : (find_linux_wifi_iface w none).2 = ifname) (hne : ifname ≠ "")
    (ht : (w.capture ["sudo", "nft", "list", "table", "inet", "sing-box"]).1 = 0)
    (hap : ¬((w.capture ["iw", "dev", ifname, "info"]).1 = 0 ∧
             pyContains (w.capture ["iw", "dev", ifname, "info"]).2 "type AP" = true))
    (hplen : 8 ≤ p.length)
    (hc : (w.capture ["nmcli", "dev", "wifi", "hotspot", "ifname", ifname, "ssid", "thronetools", "password", p]).1 = 0) :
    execCmds (enable_hotspot_linux w stdin (some false) none none (some p)).1 =
      [.argv ["nmcli", "device", "status"],
       .argv ["sudo", "nft", "list", "table", "inet", "sing-box"],
       .argv ["nmcli", "radio", "wifi", "on"],
       .argv ["iw", "dev", ifname, "info"],
       .argv ["nmcli", "dev", "wifi", "hotspot", "ifname", ifname, "ssid", "thronetools", "password", p],
       .sh ("sudo nft delete table ip " ++ quote LINUX_NFT_TABLE ++ " 2>/dev/null || true"),
       .sh ("sudo nft add table ip " ++ quote LINUX_NFT_TABLE),
       .sh ("sudo nft add chain ip " ++ quote LINUX_NFT_TABLE ++ " postrouting \x7b type nat hook postrouting priority srcnat; policy accept; \x7d"),
       .sh ("sudo nft add rule ip " ++ quote LINUX_NFT_TABLE ++ " postrouting oifname \"" ++ quote LINUX_TUN_IFACE ++ "\" masquerade"),
       .sh ("sudo nft add chain ip " ++ quote LINUX_NFT_TABLE ++ " forward \x7b type filter hook forward priority filter; policy accept; \x7d"),
       .sh ("sudo nft add rule ip " ++ quote LINUX_NFT_TABLE ++ " forward iifname \"" ++ quote ifname ++ "\" oifname \"" ++ quote LINUX_TUN_IFACE ++ "\" accept"),
       .sh ("sudo nft add rule ip " ++ quote LINUX_NFT_TABLE ++ " forward iifname \"" ++ quote LINUX_TUN_IFACE ++ "\" oifname \"" ++ quote ifname ++ "\" ct state established,related accept")] ∧
    (enable_hotspot_linux w stdin (some false) none none (some p)).2 = .returned := by
  have hpne : ¬(p = "") := by
    intro h
    rw [h] at hplen
    simp [String.length] at hplen
  have hplt : ¬(p.length < 8) := by omega
  rcases hp : find_linux_wifi_iface w none with ⟨evIf, name⟩
  have hname : name = ifname := by rw [hp] at hfi; exact hfi
  subst hname
  have hev := find_linux_wifi_iface_none_fst w
  rw [hp] at hev
  simp only at hev
  subst hev
  simp [enable_hotspot_linux, enable_hotspot_core, resolveDryRun, dryRunHeader, ensure_linux_command, hn, hi, hf, hp, run_capture,
    runCmd, LINUX_REQUIRED_INET_TABLE, LINUX_SSID, hfi, hne, ht, hap, hpne, hplt, hc,
    enable_firewall_tail,
    execCmds_append, execCmds_echoed_cons, execCmds_prompted_cons,
    execCmds_ran_cons, execCmds_nil]

/-- Witness for C3 at the fully concrete happy-path world with password
"abcdefgh" and resolved interface `wlan0`. -/
theorem C3_witness :
    execCmds (enable_hotspot_linux happyWorld emptyStdin (some false) none none (some "abcdefgh")).1 =
      [.argv ["nmcli", "device", "status"],
       .argv ["sudo", "nft", "list", "table", "inet", "sing-box"],
       .argv ["nmcli", "radio", "wifi", "on"],
       .argv ["iw", "dev", "wlan0", "info"],
       .argv ["nmcli", "dev", "wifi", "hotspot", "ifname", "wlan0", "ssid", "thronetools", "password", "abcdefgh"],
       .sh ("sudo nft delete table ip " ++ quote LINUX_NFT_TABLE ++ " 2>/dev/null || true"),
       .sh ("sudo nft add table ip " ++ quote LINUX_NFT_TABLE),
       .sh ("sudo nft add chain ip " ++ quote LINUX_NFT_TABLE ++ " postrouting \x7b type nat hook postrouting priority srcnat; policy accept; \x7d"),
       .sh ("sudo nft add rule ip " ++ quote LINUX_NFT_TABLE ++ " postrouting oifname \"" ++ quote LINUX_TUN_IFACE ++ "\" masquerade"),
       .sh ("sudo nft add chain ip " ++ quote LINUX_NFT_TABLE ++ " forward \x7b type filter hook forward priority filter; policy accept; \x7d"),
       .sh ("sudo nft add rule ip " ++ quote LINUX_NFT_TABLE ++ " forward iifname \"" ++ quote "wlan0" ++ "\" oifname \"" ++ quote LINUX_TUN_IFACE ++ "\" accept"),
       .sh ("sudo nft add rule ip " ++ quote LINUX_NFT_TABLE ++ " forward iifname \"" ++ quote LINUX_TUN_IFACE ++ "\" oifname \"" ++ quote "wlan0" ++ "\" ct state established,related accept")] ∧
    (enable_hotspot_linux happyWorld emptyStdin (some false) none none (some "abcdefgh")).2 = .returned :=
  C3_happy_path_order happyWorld emptyStdin "abcdefgh" "wlan0"
    (by decide) (by decide) (by decide) (by decide) (by decide) (by decide)
    (by decide) (by decide) (by decide)

/-- C10: if the AP-mode probe itself exits non-zero — even when its
output contains "type AP" — enable does not short-circuit: it proceeds
through password validation to the hotspot-creation command and all
seven firewall commands. -/
theorem C10_probe_failure_proceeds (w : World) (stdin : Stdin) (p ifname : String)
    (hn : w.which "nmcli" = true) (hi : w.which "iw" = true) (hf : w.which "nft" = true)
    (hfi : (find_linux_wifi_iface w none).2 = ifname) (hne : ifname ≠ "")
    (ht : (w.capture ["sudo", "nft", "list", "table", "inet", "sing-box"]).1 = 0)
    (hfail : (w.capture ["iw", "dev", ifname, "info"]).1 ≠ 0)
    (hplen : 8 ≤ p.length)
    (hc : (w.capture ["nmcli", "dev", "wifi", "hotspot", "ifname", ifname, "ssid", "thronetools", "password", p]).1 = 0) :
    execCmds (enable_hotspot_linux w stdin (some false) none none (some p)).1 =
      [.argv ["nmcli", "device", "status"],
       .argv ["sudo", "nft", "list", "table", "inet", "sing-box"],
       .argv ["nmcli", "radio", "wifi", "on"],
       .argv ["iw", "dev", ifname, "info"],
       .argv ["nmcli", "dev", "wifi", "hotspot", "ifname", ifname, "ssid", "thronetools", "password", p],
       .sh ("sudo nft delete table ip " ++ quote LINUX_NFT_TABLE ++ " 2>/dev/null || true"),
       .sh ("sudo nft add table ip " ++ quote LINUX_NFT_TABLE),
       .sh ("sudo nft add chain ip " ++ quote LINUX_NFT_TABLE ++ " postrouting \x7b type nat hook postrouting priority srcnat; policy accept; \x7d"),
       .sh ("sudo nft add rule ip " ++ quote LINUX_NFT_TABLE ++ " postrouting oifname \"" ++ quote LINUX_TUN_IFACE ++ "\" masquerade"),
       .sh ("sudo nft add chain ip " ++ quote LINUX_NFT_TABLE ++ " forward \x7b type filter hook forward priority filter; policy accept; \x7d"),
       .sh ("sudo nft add rule ip " ++ quote LINUX_NFT_TABLE ++ " forward iifname \"" ++ quote ifname ++ "\" oifname \"" ++ quote LINUX_TUN_IFACE ++ "\" accept"),
       .sh ("sudo nft add rule ip " ++ quote LINUX_NFT_TABLE ++ " forward iifname \"" ++ quote LINUX_TUN_IFACE ++ "\" oifname \"" ++ quote ifname ++ "\" ct state established,related accept")] ∧
    (enable_hotspot_linux w stdin (some false) none none (some p)).2 = .returned := by
  have hpne : ¬(p = "") := by
    intro h
    rw [h] at hplen
    simp [String.length] at hplen
  have hplt : ¬(p.length < 8) := by omega
  rcases hp : find_linux_wifi_iface w none with ⟨evIf, name⟩
  have hname : name = ifname := by rw [hp] at hfi; exact hfi
  subst hname
  have hev := find_linux_wifi_iface_none_fst w
  rw [hp] at hev
  simp only at hev
  subst hev
  simp [enable_hotspot_linux, enable_hotspot_core, resolveDryRun, dryRunHeader, ensure_linux_command, hn, hi, hf, hp, run_capture,
    runCmd, LINUX_REQUIRED_INET_TABLE, LINUX_SSID, hfi, hne, ht, hfail, hpne, hplt, hc,
    enable_firewall_tail,
    execCmds_append, execCmds_echoed_cons, execCmds_prompted_cons,
    execCmds_ran_cons, execCmds_nil]

/-- Witness for C10 at a concrete world whose `iw` probe exits 1 with
output "type AP" (ignored because of the exit code). -/
theorem C10_witness :
    execCmds (enable_hotspot_linux probeFailWorld emptyStdin (some false) none none (some "abcdefgh")).1 =
      [.argv ["nmcli", "device", "status"],
       .argv ["sudo", "nft", "list", "table", "inet", "sing-box"],
       .argv ["nmcli", "radio", "wifi", "on"],
       .argv ["iw", "dev", "wlan0", "info"],
       .argv ["nmcli", "dev", "wifi", "hotspot", "ifname", "wlan0", "ssid", "thronetools", "password", "abcdefgh"],
       .sh ("sudo nft delete table ip " ++ quote LINUX_NFT_TABLE ++ " 2>/dev/null || true"),
       .sh ("sudo nft add table ip " ++ quote LINUX_NFT_TABLE),
       .sh ("sudo nft add chain ip " ++ quote LINUX_NFT_TABLE ++ " postrouting \x7b type nat hook postrouting priority srcnat; policy accept; \x7d"),
       .sh ("sudo nft add rule ip " ++ quote LINUX_NFT_TABLE ++ " postrouting oifname \"" ++ quote LINUX_TUN_IFACE ++ "\" masquerade"),
       .sh ("sudo nft add chain ip " ++ quote LINUX_NFT_TABLE ++ " forward \x7b type filter hook forward priority filter; policy accept; \x7d"),
       .sh ("sudo nft add rule ip " ++ quote LINUX_NFT_TABLE ++ " forward iifname \"" ++ quote "wlan0" ++ "\" oifname \"" ++ quote LINUX_TUN_IFACE ++ "\" accept"),
       .sh ("sudo nft add rule ip " ++ quote LINUX_NFT_TABLE ++ " forward iifname \"" ++ quote LINUX_TUN_IFACE ++ "\" oifname \"" ++ quote "wlan0" ++ "\" ct state established,related accept")] ∧
    (enable_hotspot_linux probeFailWorld emptyStdin (some false) none none (some "abcdefgh")).2 = .returned :=
  C10_probe_failure_proceeds probeFailWorld emptyStdin "abcdefgh" "wlan0"
    (by decide) (by decide) (by decide) (by decide) (by decide) (by decide)
    (by decide) (by decide) (by decide)

/-- C1 counterexample: with the too-short password "short" supplied
programmatically, enable does exit non-zero, but only after the radio-on
command and the AP-mode probe have already been executed — refuting
"fails before any external command is executed". -/
theorem C1_counterexample :
    (enable_hotspot_linux happyWorld emptyStdin (some false) none none (some "short")).2 = .exited 1 ∧
    .ran radioOnCmd ∈ (enable_hotspot_linux happyWorld emptyStdin (some false) none none (some "short")).1 ∧
    .ran (.argv ["iw", "dev", "wlan0", "info"]) ∈
      (enable_hotspot_linux happyWorld emptyStdin (some false) none none (some "short")).1 := by
  decide

/-- C2 counterexample: when the `nft list table inet sing-box` probe
fails, enable aborts with exit 1, but the interface-resolution query has
already been executed (and precedes the probe in the trace) — refuting
"the precondition check on the required table precedes interface
resolution". -/
theorem C2_counterexample :
    (enable_hotspot_linux noTableWorld emptyStdin (some false) none none (some "abcdefgh")).2 = .exited 1 ∧
    execCmds (enable_hotspot_linux noTableWorld emptyStdin (some false) none none (some "abcdefgh")).1 =
      [.argv ["nmcli", "device", "status"], .argv ["sudo", "nft", "list", "table", "inet", "sing-box"]] := by
  decide

/-- C4 counterexample: with identical query responses, a world where the
hotspot-creation command would fail makes the real run exit 1 while the
dry run returns success — refuting "the invocation takes the same
success/failure control-flow branch it would take with dryRun=false". -/
theorem C4_counterexample :
    (enable_hotspot_linux createFailWorld emptyStdin (some true) none none (some "abcdefgh")).2 = .returned ∧
    (enable_hotspot_linux createFailWorld emptyStdin (some false) none none (some "abcdefgh")).2 = .exited 1 := by
  decide

/-- C6 counterexample: a CLI `hotspot enable`/`hotspot disable` without
`--dry-run` passes `dry_run=False` (argparse `store_true`), so the
interactive dry-run question is never asked on that path. -/
theorem C6_counterexample :
    .prompted dryRunQuestion ∉ (cli_hotspot_enable happyWorld emptyStdin ⟨false, none, none, some "abcdefgh"⟩).1 ∧
    .prompted dryRunQuestion ∉ (cli_hotspot_disable happyWorld emptyStdin false).1 := by
  decide

/-- C9 counterexample: the dry-run trace echoes the supplied password in
clear in its final summary line, so dry-run output is not identical
across two valid passwords with the same SSID and interface. -/
theorem C9_counterexample :
    .echoed "Password: abcdefgh" ∈
      (enable_hotspot_linux happyWorld emptyStdin (some true) none none (some "abcdefgh")).1 ∧
    (enable_hotspot_linux happyWorld emptyStdin (some true) none none (some "abcdefgh")).1 ≠
      (enable_hotspot_linux happyWorld emptyStdin (some true) none none (some "ABCDEFGH")).1 := by
  decide



lemma promptPassword_execCmds (l : List String) : execCmds (promptPassword l).1 = [] := by
  induction l with
  | nil => rfl
  | cons p t ih =>
    rcases hP : promptPassword t with ⟨ev, r⟩
    rw [hP] at ih
    simp only [promptPassword, hP]
    split
    · rfl
    · simpa [execCmds_append, execCmds_prompted_cons, execCmds_echoed_cons] using ih

lemma promptPassword_no_dry_prompt (l : List String) :
    Event.prompted dryRunQuestion ∉ (promptPassword l).1 := by
  induction l with
  | nil => simp [promptPassword, dryRunQuestion]
  | cons p t ih =>
    rcases hP : promptPassword t with ⟨ev, r⟩
    rw [hP] at ih
    simp only [promptPassword, hP]
    split
    · simp [dryRunQuestion]
    · simp_all [dryRunQuestion]

set_option maxHeartbeats 2000000 in
lemma enable_core_dry_query_only (w : World) (stdin : Stdin) (iface ssid password : Option String) :
    ∀ c ∈ execCmds (enable_hotspot_core w stdin true iface ssid password).1, isQueryCmd c = true := by
  rcases hp : find_linux_wifi_iface w iface with ⟨evIf, name⟩
  have hev := find_linux_wifi_iface_fst w iface
  rw [hp] at hev
  simp only at hev
  rcases hP : promptPassword stdin.passwords with ⟨evPw, pwOpt⟩
  have hPex : execCmds evPw = [] := by
    have h2 := promptPassword_execCmds stdin.passwords
    rw [hP] at h2; exact h2
  rcases hev with hev | hev <;> subst hev <;>
    by_cases hn : w.which "nmcli" = true <;>
    by_cases hi : w.which "iw" = true <;>
    by_cases hf : w.which "nft" = true
  all_goals
    simp only [enable_hotspot_core, ensure_linux_command, hn, hi, hf, run_capture, runCmd,
      hp, hP, enable_firewall_tail, if_true, if_false, ite_true, ite_false,
      Bool.false_eq_true, Bool.true_eq_false, eq_self_iff_true, not_true, not_false_iff]
  all_goals repeat' split
  all_goals
    simp_all [execCmds_append, execCmds_echoed_cons, execCmds_prompted_cons,
      execCmds_ran_cons, execCmds_nil, isQueryCmd]

set_option maxHeartbeats 2000000 in
lemma enable_core_dry_real_outcome (w : World) (stdin : Stdin) (iface ssid password : Option String)
    (hcreate : ∀ args, args.take 4 = ["nmcli", "dev", "wifi", "hotspot"] → (w.capture args).1 = 0) :
    (enable_hotspot_core w stdin true iface ssid password).2 =
    (enable_hotspot_core w stdin false iface ssid password).2 := by
  have hcr : ∀ ifn sid pwd,
      (w.capture ["nmcli", "dev", "wifi", "hotspot", "ifname", ifn, "ssid", sid, "password", pwd]).1 = 0 :=
    fun ifn sid pwd => hcreate _ (by rfl)
  rcases hp : find_linux_wifi_iface w iface with ⟨evIf, name⟩
  rcases hP : promptPassword stdin.passwords with ⟨evPw, pwOpt⟩
  by_cases hn : w.which "nmcli" = true <;>
    by_cases hi : w.which "iw" = true <;>
    by_cases hf : w.which "nft" = true
  all_goals
    simp only [enable_hotspot_core, ensure_linux_command, hn, hi, hf, run_capture, runCmd,
      hp, hP, enable_firewall_tail, if_true, if_false, ite_true, ite_false,
      Bool.false_eq_true, Bool.true_eq_false, eq_self_iff_true, not_true, not_false_iff]
  all_goals repeat' split
  all_goals simp_all [hcr]

set_option maxHeartbeats 2000000 in
lemma enable_core_no_dry_prompt (w : World) (stdin : Stdin) (dr : Bool)
    (iface ssid password : Option String) :
    Event.prompted dryRunQuestion ∉ (enable_hotspot_core w stdin dr iface ssid password).1 := by
  rcases hp : find_linux_wifi_iface w iface with ⟨evIf, name⟩
  have hev := find_linux_wifi_iface_fst w iface
  rw [hp] at hev
  simp only at hev
  rcases hP : promptPassword stdin.passwords with ⟨evPw, pwOpt⟩
  have hPnd : Event.prompted dryRunQuestion ∉ evPw := by
    have h2 := promptPassword_no_dry_prompt stdin.passwords
    rw [hP] at h2; exact h2
  rcases hev with hev | hev <;> subst hev <;>
    cases dr <;>
    rcases pwOpt with _ | pw <;>
    by_cases hn : w.which "nmcli" = true <;>
    by_cases hi : w.which "iw" = true <;>
    by_cases hf : w.which "nft" = true
  all_goals
    simp only [enable_hotspot_core, ensure_linux_command, hn, hi, hf, run_capture, runCmd,
      hp, hP, enable_firewall_tail, if_true, if_false, ite_true, ite_false,
      Bool.false_eq_true, Bool.true_eq_false, eq_self_iff_true, not_true, not_false_iff]
  all_goals repeat' split
  all_goals simp_all [dryRunQuestion]

lemma disable_core_no_dry_prompt (w : World) (dr : Bool) :
    Event.prompted dryRunQuestion ∉ (disable_hotspot_core w dr).1 := by
  cases dr <;> simp [disable_hotspot_core, runCmd]


/-- C1 (amended): a non-interactively supplied non-empty password
shorter than 8 characters makes enable exit 1 before the
hotspot-creation command and before any firewall command is executed,
but only after the radio-on command and the AP-mode probe have been
issued (in real mode the radio-on command is in the executed trace). -/
theorem C1_short_password_after_probes (w : World) (stdin : Stdin) (dry_run : Option Bool)
    (iface ssid : Option String) (p ifname : String)
    (hn : w.which "nmcli" = true) (hi : w.which "iw" = true) (hf : w.which "nft" = true)
    (hfi : (find_linux_wifi_iface w iface).2 = ifname) (hne : ifname ≠ "")
    (ht : (w.capture ["sudo", "nft", "list", "table", "inet", "sing-box"]).1 = 0)
    (hap : ¬((w.capture ["iw", "dev", ifname, "info"]).1 = 0 ∧
             pyContains (w.capture ["iw", "dev", ifname, "info"]).2 "type AP" = true))
    (hpne : p ≠ "") (hplt : p.length < 8) :
    (enable_hotspot_linux w stdin dry_run iface ssid (some p)).2 = .exited 1 ∧
    (∀ c ∈ execCmds (enable_hotspot_linux w stdin dry_run iface ssid (some p)).1,
      isHotspotCreateCmd c = false ∧ isNftMutateCmd c = false) ∧
    (dry_run = some false →
      .ran radioOnCmd ∈ (enable_hotspot_linux w stdin dry_run iface ssid (some p)).1 ∧
      .ran (.argv ["iw", "dev", ifname, "info"]) ∈
        (enable_hotspot_linux w stdin dry_run iface ssid (some p)).1) := by
  rcases hp : find_linux_wifi_iface w iface with ⟨evIf, name⟩
  have hname : name = ifname := by rw [hp] at hfi; exact hfi
  subst hname
  have hev := find_linux_wifi_iface_fst w iface
  rw [hp] at hev
  simp only at hev
  rcases dry_run with _ | b
  case none =>
    by_cases hy : pyLower (pyStrip stdin.dryChoice) = "y" <;>
    rcases hev with hev | hev <;> subst hev <;>
    simp [enable_hotspot_linux, enable_hotspot_core, resolveDryRun, dryRunHeader,
      ensure_linux_command, hn, hi, hf, hp, run_capture, runCmd,
      LINUX_REQUIRED_INET_TABLE, hfi, hne, ht, hap, hpne, hplt, hy, radioOnCmd,
      execCmds_append, execCmds_echoed_cons, execCmds_prompted_cons,
      execCmds_ran_cons, execCmds_nil, isHotspotCreateCmd, isNftMutateCmd]
  case some =>
    cases b <;>
    rcases hev with hev | hev <;> subst hev <;>
    simp [enable_hotspot_linux, enable_hotspot_core, resolveDryRun, dryRunHeader,
      ensure_linux_command, hn, hi, hf, hp, run_capture, runCmd,
      LINUX_REQUIRED_INET_TABLE, hfi, hne, ht, hap, hpne, hplt, radioOnCmd,
      execCmds_append, execCmds_echoed_cons, execCmds_prompted_cons,
      execCmds_ran_cons, execCmds_nil, isHotspotCreateCmd, isNftMutateCmd]

/-- Witness for C1 at the happy-path world with the short password
"short" in real mode. -/
theorem C1_witness :
    (enable_hotspot_linux happyWorld emptyStdin (some false) none none (some "short")).2 = .exited 1 ∧
    (∀ c ∈ execCmds (enable_hotspot_linux happyWorld emptyStdin (some false) none none (some "short")).1,
      isHotspotCreateCmd c = false ∧ isNftMutateCmd c = false) ∧
    (some false = some false →
      .ran radioOnCmd ∈ (enable_hotspot_linux happyWorld emptyStdin (some false) none none (some "short")).1 ∧
      .ran (.argv ["iw", "dev", "wlan0", "info"]) ∈
        (enable_hotspot_linux happyWorld emptyStdin (some false) none none (some "short")).1) :=
  C1_short_password_after_probes happyWorld emptyStdin (some false) none none "short" "wlan0"
    (by decide) (by decide) (by decide) (by decide) (by decide) (by decide)
    (by decide) (by decide) (by decide)

/-- C2 (amended): whenever the probe for the required `inet sing-box`
table exits non-zero, enable aborts with exit 1 and the
missing-firewall-table message before the radio-on command, the
creation command, or any firewall command is executed — but after
interface resolution, whose read-only query has already run (only
read-only query commands appear in the executed trace). -/
theorem C2_missing_table_aborts_before_radio (w : World) (stdin : Stdin) (dry_run : Option Bool)
    (iface ssid password : Option String) (ifname : String)
    (hn : w.which "nmcli" = true) (hi : w.which "iw" = true) (hf : w.which "nft" = true)
    (hfi : (find_linux_wifi_iface w iface).2 = ifname) (hne : ifname ≠ "")
    (ht : (w.capture ["sudo", "nft", "list", "table", "inet", "sing-box"]).1 ≠ 0) :
    (enable_hotspot_linux w stdin dry_run iface ssid password).2 = .exited 1 ∧
    .echoed (color ("❌ Missing \x27inet " ++ LINUX_REQUIRED_INET_TABLE ++ "\x27 nftables table.") RED)
      ∈ (enable_hotspot_linux w stdin dry_run iface ssid password).1 ∧
    (∀ c ∈ execCmds (enable_hotspot_linux w stdin dry_run iface ssid password).1,
      isQueryCmd c = true) := by
  rcases hp : find_linux_wifi_iface w iface with ⟨evIf, name⟩
  have hname : name = ifname := by rw [hp] at hfi; exact hfi
  subst hname
  have hev := find_linux_wifi_iface_fst w iface
  rw [hp] at hev
  simp only at hev
  rcases dry_run with _ | b
  case none =>
    by_cases hy : pyLower (pyStrip stdin.dryChoice) = "y" <;>
    rcases hev with hev | hev <;> subst hev <;>
    simp [enable_hotspot_linux, enable_hotspot_core, resolveDryRun, dryRunHeader,
      ensure_linux_command, hn, hi, hf, hp, run_capture, runCmd,
      LINUX_REQUIRED_INET_TABLE, hfi, hne, ht, hy,
      execCmds_append, execCmds_echoed_cons, execCmds_prompted_cons,
      execCmds_ran_cons, execCmds_nil, isQueryCmd]
  case some =>
    cases b <;>
    rcases hev with hev | hev <;> subst hev <;>
    simp [enable_hotspot_linux, enable_hotspot_core, resolveDryRun, dryRunHeader,
      ensure_linux_command, hn, hi, hf, hp, run_capture, runCmd,
      LINUX_REQUIRED_INET_TABLE, hfi, hne, ht,
      execCmds_append, execCmds_echoed_cons, execCmds_prompted_cons,
      execCmds_ran_cons, execCmds_nil, isQueryCmd]

/-- Witness for C2 at the concrete world whose `sing-box` table probe
fails. -/
theorem C2_witness :
    (enable_hotspot_linux noTableWorld emptyStdin (some false) none none (some "abcdefgh")).2 = .exited 1 ∧
    .echoed (color ("❌ Missing \x27inet " ++ LINUX_REQUIRED_INET_TABLE ++ "\x27 nftables table.") RED)
      ∈ (enable_hotspot_linux noTableWorld emptyStdin (some false) none none (some "abcdefgh")).1 ∧
    (∀ c ∈ execCmds (enable_hotspot_linux noTableWorld emptyStdin (some false) none none (some "abcdefgh")).1,
      isQueryCmd c = true) :=
  C2_missing_table_aborts_before_radio noTableWorld emptyStdin (some false) none none (some "abcdefgh") "wlan0"
    (by decide) (by decide) (by decide) (by decide) (by decide) (by decide)

/-- C4 (amended): in dry-run mode `run_cmd` returns a synthetic success
with exit code 0 after echoing the would-be command line; a dry-run
enable executes only read-only query commands and a dry-run disable
executes none; disable takes the same branch in both modes, and enable
takes the same success/failure branch as real execution whenever the
hotspot-creation command would succeed in real mode (when it would fail,
real mode exits 1 while dry run proceeds — see the counterexample). -/
theorem C4_dry_run_properties (w : World) (stdin : Stdin)
    (iface ssid password : Option String) (c : Cmd) (check : Bool) :
    runCmd w c true check = ([.echoed (color ("→ " ++ cmdLine c) BLUE)], .ok ⟨0, ""⟩) ∧
    (∀ cc ∈ execCmds (enable_hotspot_linux w stdin (some true) iface ssid password).1,
      isQueryCmd cc = true) ∧
    execCmds (disable_hotspot_linux w stdin (some true)).1 = [] ∧
    (disable_hotspot_linux w stdin (some true)).2 = (disable_hotspot_linux w stdin (some false)).2 ∧
    ((∀ args, args.take 4 = ["nmcli", "dev", "wifi", "hotspot"] → (w.capture args).1 = 0) →
      (enable_hotspot_linux w stdin (some true) iface ssid password).2 =
        (enable_hotspot_linux w stdin (some false) iface ssid password).2) := by
  refine ⟨rfl, ?_, rfl, rfl, ?_⟩
  · intro cc hcc
    have hsplit : execCmds (enable_hotspot_linux w stdin (some true) iface ssid password).1 =
        execCmds (enable_hotspot_core w stdin true iface ssid password).1 := rfl
    rw [hsplit] at hcc
    exact enable_core_dry_query_only w stdin iface ssid password cc hcc
  · intro hcreate
    have h1 : (enable_hotspot_linux w stdin (some true) iface ssid password).2 =
        (enable_hotspot_core w stdin true iface ssid password).2 := rfl
    have h2 : (enable_hotspot_linux w stdin (some false) iface ssid password).2 =
        (enable_hotspot_core w stdin false iface ssid password).2 := rfl
    rw [h1, h2]
    exact enable_core_dry_real_outcome w stdin iface ssid password hcreate

/-- Witness for C4 at the happy-path world, discharging the
creation-succeeds hypothesis of the branch-agreement conjunct. -/
theorem C4_witness :
    (enable_hotspot_linux happyWorld emptyStdin (some true) none none (some "abcdefgh")).2 =
      (enable_hotspot_linux happyWorld emptyStdin (some false) none none (some "abcdefgh")).2 :=
  (C4_dry_run_properties happyWorld emptyStdin none none (some "abcdefgh") (.argv ["true"]) false).2.2.2.2
    (by
      intro args h
      have hargs : args = ["nmcli", "dev", "wifi", "hotspot"] ++ args.drop 4 := by
        conv_lhs => rw [← List.take_append_drop 4 args, h]
      rw [hargs]
      simp [happyWorld, List.take])

/-- C6 (amended): through the CLI subcommand surface `hotspot
enable`/`hotspot disable`, argparse passes `dry_run` as a boolean
(`False` when `--dry-run` is absent), so the interactive dry-run
question is never asked there; the question is asked exactly on the
interactive-menu path (`dry_run=None`), where enable behaves as if
called with the decoded flag, the reply selects dry-run iff it equals
"y" after strip and lower, and the empty reply defaults to no. -/
theorem C6_cli_never_prompts_menu_prompts (w : World) (stdin : Stdin)
    (a : HotspotEnableArgs) (dfl : Bool) (iface ssid password : Option String) :
    Event.prompted dryRunQuestion ∉ (cli_hotspot_enable w stdin a).1 ∧
    Event.prompted dryRunQuestion ∉ (cli_hotspot_disable w stdin dfl).1 ∧
    enable_hotspot_linux w stdin none iface ssid password =
      ([.echoed (color "=== ENABLE HOTSPOT ===" BLUE), .echoed "",
        .echoed (color "🚀 Starting Throne Hotspot..." GREEN), .prompted dryRunQuestion] ++
       (if resolveDryRun stdin none then [.echoed dryRunNotice] else []) ++
       (enable_hotspot_core w stdin (resolveDryRun stdin none) iface ssid password).1,
       (enable_hotspot_core w stdin (resolveDryRun stdin none) iface ssid password).2) ∧
    (resolveDryRun stdin none = true ↔ pyLower (pyStrip stdin.dryChoice) = "y") ∧
    resolveDryRun ⟨"", []⟩ none = false ∧
    (∀ b, resolveDryRun stdin (some b) = b) := by
  refine ⟨?_, ?_, ?_, by simp [resolveDryRun], by decide, fun b => rfl⟩
  · intro hmem
    have hsplit : (cli_hotspot_enable w stdin a).1 =
        ([.echoed (color "=== ENABLE HOTSPOT ===" BLUE), .echoed "",
          .echoed (color "🚀 Starting Throne Hotspot..." GREEN)] ++
         dryRunHeader stdin (some a.dry_run) ++
         (enable_hotspot_core w stdin (resolveDryRun stdin (some a.dry_run)) a.iface a.ssid a.password).1) := rfl
    rw [hsplit] at hmem
    simp only [List.mem_append] at hmem
    rcases hmem with (hmem | hmem) | hmem
    · simp [dryRunQuestion] at hmem
    · rcases a with ⟨ad, ai, as2, ap⟩
      cases ad <;> simp [dryRunHeader, resolveDryRun] at hmem
    · exact enable_core_no_dry_prompt w stdin _ a.iface a.ssid a.password hmem
  · intro hmem
    have hsplit : (cli_hotspot_disable w stdin dfl).1 =
        ([.echoed (color "=== DISABLE HOTSPOT ===" BLUE), .echoed ""] ++
         dryRunHeader stdin (some dfl) ++
         (disable_hotspot_core w (resolveDryRun stdin (some dfl))).1) := rfl
    rw [hsplit] at hmem
    simp only [List.mem_append] at hmem
    rcases hmem with (hmem | hmem) | hmem
    · simp at hmem
    · cases dfl <;> simp [dryRunHeader, resolveDryRun] at hmem
    · exact disable_core_no_dry_prompt w _ hmem
  · rfl

lemma echoes_append (a b : List Event) : echoes (a ++ b) = echoes a ++ echoes b := by
  simp [echoes]

lemma cmdEchoLines_append (a b : List Event) :
    cmdEchoLines (a ++ b) = cmdEchoLines a ++ cmdEchoLines b := by
  simp [cmdEchoLines, echoes_append]

lemma cmdEchoLines_nil : cmdEchoLines [] = [] := rfl

lemma cmdEchoLines_ran_cons (c : Cmd) (t : List Event) :
    cmdEchoLines (.ran c :: t) = cmdEchoLines t := rfl

lemma cmdEchoLines_prompted_cons (s : String) (t : List Event) :
    cmdEchoLines (.prompted s :: t) = cmdEchoLines t := rfl

lemma cmdEchoLines_echoed_cons (s : String) (t : List Event) :
    cmdEchoLines (.echoed s :: t) =
      if isCmdEchoLine s then s :: cmdEchoLines t else cmdEchoLines t := by
  simp [cmdEchoLines, echoes, List.filter_cons]

lemma isCmdEchoLine_password (p : String) : isCmdEchoLine ("Password: " ++ p) = false := by
  have hb : (BLUE ++ "→ ").data =
      ['\x1b', '[', '0', ';', '3', '4', 'm', '→', ' '] := rfl
  have hp : ("Password: " ++ p).data =
      'P' :: 'a' :: 's' :: 's' :: 'w' :: 'o' :: 'r' :: 'd' :: ':' :: ' ' :: p.data := rfl
  simp [isCmdEchoLine, hb, hp, List.isPrefixOf]

set_option maxHeartbeats 2000000 in
lemma enable_core_dry_cmdEchoLines_pw (w : World) (stdin : Stdin) (iface ssid : Option String)
    (p1 p2 : String) (h1 : 8 ≤ p1.length) (h2 : 8 ≤ p2.length) :
    cmdEchoLines (enable_hotspot_core w stdin true iface ssid (some p1)).1 =
    cmdEchoLines (enable_hotspot_core w stdin true iface ssid (some p2)).1 := by
  have hpne1 : ¬(p1 = "") := by
    intro h; rw [h] at h1; simp [String.length] at h1
  have hpne2 : ¬(p2 = "") := by
    intro h; rw [h] at h2; simp [String.length] at h2
  have hplt1 : ¬(p1.length < 8) := by omega
  have hplt2 : ¬(p2.length < 8) := by omega
  rcases hp : find_linux_wifi_iface w iface with ⟨evIf, name⟩
  by_cases hn : w.which "nmcli" = true <;>
    by_cases hi : w.which "iw" = true <;>
    by_cases hf : w.which "nft" = true
  all_goals
    simp only [enable_hotspot_core, ensure_linux_command, hn, hi, hf, run_capture, runCmd,
      hp, enable_firewall_tail, Option.getD, hpne1, hpne2, hplt1, hplt2,
      if_true, if_false, ite_true, ite_false,
      Bool.false_eq_true, Bool.true_eq_false, eq_self_iff_true, not_true, not_false_iff]
  all_goals repeat' split
  all_goals
    simp only [cmdEchoLines_append, cmdEchoLines_nil, cmdEchoLines_ran_cons,
      cmdEchoLines_prompted_cons, cmdEchoLines_echoed_cons, isCmdEchoLine_password,
      Bool.false_eq_true, List.append_nil, List.nil_append, if_false, ite_false]

/-- C9 (amended): in dry-run mode the printed would-be command lines of
enable are identical for any two passwords of valid length (same SSID
and interface): the creation line is printed with the password masked
as "********"; only the final clear-text summary line differs. -/
theorem C9_dry_cmd_lines_password_independent (w : World) (stdin : Stdin)
    (iface ssid : Option String) (p1 p2 : String)
    (h1 : 8 ≤ p1.length) (h2 : 8 ≤ p2.length) :
    cmdEchoLines (enable_hotspot_linux w stdin (some true) iface ssid (some p1)).1 =
    cmdEchoLines (enable_hotspot_linux w stdin (some true) iface ssid (some p2)).1 := by
  have hw : ∀ p : String,
      (enable_hotspot_linux w stdin (some true) iface ssid (some p)).1 =
        ([.echoed (color "=== ENABLE HOTSPOT ===" BLUE), .echoed "",
          .echoed (color "🚀 Starting Throne Hotspot..." GREEN)] ++
         dryRunHeader stdin (some true) ++
         (enable_hotspot_core w stdin true iface ssid (some p)).1) := fun p => rfl
  rw [hw p1, hw p2, cmdEchoLines_append, cmdEchoLines_append, cmdEchoLines_append,
    cmdEchoLines_append, enable_core_dry_cmdEchoLines_pw w stdin iface ssid p1 p2 h1 h2]

/-- Witness for C9 at the happy-path world with two different valid
passwords. -/
theorem C9_witness :
    cmdEchoLines (enable_hotspot_linux happyWorld emptyStdin (some true) none none (some "abcdefgh")).1 =
    cmdEchoLines (enable_hotspot_linux happyWorld emptyStdin (some true) none none (some "ABCDEFGH")).1 :=
  C9_dry_cmd_lines_password_independent happyWorld emptyStdin none none "abcdefgh" "ABCDEFGH"
    (by decide) (by decide)

/-- Witness instantiation for C6 at a concrete CLI invocation without
the dry-run flag. -/
theorem C6_witness :
    Event.prompted dryRunQuestion ∉
      (cli_hotspot_enable happyWorld emptyStdin ⟨false, none, none, some "abcdefgh"⟩).1 :=
  (C6_cli_never_prompts_menu_prompts happyWorld emptyStdin ⟨false, none, none, some "abcdefgh"⟩ false
    none none (some "abcdefgh")).1

/-- A line of the terse `DEVICE:TYPE` listing that reports `req` with
type `wifi`. -/
def lineReportsWifi (req line : String) : Bool :=
  match splitFirstColon line with
  | some (d, t) => d == req && t == "wifi"
  | none => false

/-- Whether the terse device listing output reports `req` as a wifi
device on some line (the specification reading of request validation). -/
def listingReportsWifi (stdout req : String) : Bool :=
  (splitlines stdout).any (lineReportsWifi req)

lemma findRequestedDevice_eq (req : String) (lines : List String) :
    findRequestedDevice req lines = if lines.any (lineReportsWifi req) then req else "" := by
  induction lines with
  | nil => rfl
  | cons l t ih =>
    rcases h : splitFirstColon l with _ | ⟨d, ty⟩
    · simp [findRequestedDevice, List.any_cons, lineReportsWifi, h, ih]
    · by_cases hc : d = req ∧ ty = "wifi"
      · simp [findRequestedDevice, List.any_cons, lineReportsWifi, h, hc, hc.1, hc.2]
      · have hb : ¬(d == req && ty == "wifi") = true := by
          simpa [Bool.and_eq_true] using hc
        simp [findRequestedDevice, List.any_cons, lineReportsWifi, h, hc, hb, ih]

lemma firstWifiDevice_spec (lines : List String) :
    firstWifiDevice lines =
      (((lines.find? fun line => (pySplit line)[1]? == some "wifi").map
        fun line => ((pySplit line)[0]?).getD "").getD "") := by
  induction lines with
  | nil => rfl
  | cons l t ih =>
    by_cases h2 : 2 ≤ (pySplit l).length
    · have h1 : (pySplit l)[1]? = some ((pySplit l).get ⟨1, by omega⟩) := by
        rw [List.getElem?_eq_getElem (by omega), List.get_eq_getElem]
      by_cases hw : (pySplit l)[1]? = some "wifi"
      · have hp : ((pySplit l)[1]? == some "wifi") = true := by rw [hw]; rfl
        have hga : (pySplit l).get ⟨1, by omega⟩ = "wifi" := by
          rw [h1] at hw
          exact Option.some_inj.mp hw
        rw [List.get_eq_getElem] at hga
        have h0 : (pySplit l)[0]? = some ((pySplit l).get ⟨0, by omega⟩) := by
          rw [List.getElem?_eq_getElem (by omega), List.get_eq_getElem]
        have hL : firstWifiDevice (l :: t) = (pySplit l).get ⟨0, by omega⟩ := by
          simp [firstWifiDevice, h2, hga]
        have hR : List.find? (fun line => (pySplit line)[1]? == some "wifi") (l :: t) = some l :=
          List.find?_cons_of_pos _ hp
        rw [hL, hR]
        simp [h0]
      · have hga : ¬((pySplit l).get ⟨1, by omega⟩ = "wifi") := by
          intro hcon
          apply hw
          rw [h1, hcon]
        rw [List.get_eq_getElem] at hga
        have hL : firstWifiDevice (l :: t) = firstWifiDevice t := by
          simp [firstWifiDevice, h2, hga]
        have hR : List.find? (fun line => (pySplit line)[1]? == some "wifi") (l :: t) =
            List.find? (fun line => (pySplit line)[1]? == some "wifi") t := by
          apply List.find?_cons_of_neg
          simp [hw]
        rw [hL, hR, ih]
    · have h1 : (pySplit l)[1]? = none := by
        rw [List.getElem?_eq_none]
        omega
      have hL : firstWifiDevice (l :: t) = firstWifiDevice t := by
        simp [firstWifiDevice, h2]
      have hR : List.find? (fun line => (pySplit line)[1]? == some "wifi") (l :: t) =
          List.find? (fun line => (pySplit line)[1]? == some "wifi") t := by
        apply List.find?_cons_of_neg
        simp [h1]
      rw [hL, hR, ih]

/-- C7: requested-interface resolution succeeds with the requested name
exactly when the terse device listing succeeds and reports it with type
wifi (otherwise it yields the empty name, surfaced by the caller as
InterfaceNotFound); unrequested resolution returns the first device of
the status listing whose type field is wifi (empty when none exists,
NoWifiInterface); resolution only executes read-only query commands; on
the listing `wlan0:wifi`/`eth0:ethernet`, requesting wlan0 resolves to
wlan0 and requesting eth0 fails and makes enable exit 1. -/
theorem C7_interface_resolution (w : World) (req : String) (hreq : req ≠ "") :
    ((find_linux_wifi_iface w (some req)).2 =
      if (w.capture ["nmcli", "-t", "-f", "DEVICE,TYPE", "device"]).1 = 0 ∧
         listingReportsWifi (w.capture ["nmcli", "-t", "-f", "DEVICE,TYPE", "device"]).2 req = true
      then req else "") ∧
    (∀ r, ∀ c ∈ execCmds (find_linux_wifi_iface w r).1, isQueryCmd c = true) ∧
    ((w.capture ["nmcli", "device", "status"]).1 = 0 →
      (find_linux_wifi_iface w none).2 =
        ((((splitlines (w.capture ["nmcli", "device", "status"]).2).find?
            fun line => (pySplit line)[1]? == some "wifi").map
          fun line => ((pySplit line)[0]?).getD "").getD "")) ∧
    (find_linux_wifi_iface happyWorld (some "wlan0")).2 = "wlan0" ∧
    (find_linux_wifi_iface happyWorld (some "eth0")).2 = "" ∧
    (enable_hotspot_linux happyWorld emptyStdin (some false) (some "eth0") none (some "abcdefgh")).2 = .exited 1 := by
  refine ⟨?_, ?_, ?_, by decide, by decide, by decide⟩
  · by_cases hrc : (w.capture ["nmcli", "-t", "-f", "DEVICE,TYPE", "device"]).1 = 0
    · simp [find_linux_wifi_iface, hreq, run_capture, hrc, findRequestedDevice_eq,
        listingReportsWifi]
    · simp [find_linux_wifi_iface, hreq, run_capture, hrc]
  · intro r c hc
    rcases find_linux_wifi_iface_fst w r with hev | hev <;> rw [hev] at hc <;>
      simp [execCmds] at hc <;> subst hc <;> decide
  · intro hrc
    simp [find_linux_wifi_iface, detect_wifi_iface, run_capture, hrc, firstWifiDevice_spec]

/-- Witness for C7 at the concrete listing with `eth0` of type
ethernet. -/
theorem C7_witness :
    (find_linux_wifi_iface happyWorld (some "eth0")).2 =
      (if (happyWorld.capture ["nmcli", "-t", "-f", "DEVICE,TYPE", "device"]).1 = 0 ∧
          listingReportsWifi (happyWorld.capture ["nmcli", "-t", "-f", "DEVICE,TYPE", "device"]).2 "eth0" = true
       then "eth0" else "") :=
  (C7_interface_resolution happyWorld "eth0" (by decide)).1

end ThroneTools
